import Mathlib

/-!
Shallow embedding of `scripts/validate_snapshot.py`: the Check Result data
model, the six invariant checks, the runner that collects their results,
the verdict/exit computation, and the connection-target resolution logic.

Tables are modelled by the columns the checks actually read:
`deck_cards` as the list of its `deck_hash` values, the five stats tables
as lists of `(uses, wins)` rows (`meta_deck_types` rows additionally carry
their `deck_type` label), and `player` by its row count.  SQL aggregates
are embedded directly: `SUM` with `COALESCE(...,0)` is a list sum over
`Int` (empty sum = 0), `GROUP BY`/`COUNT(*)` is grouping by value with
occurrence counts, `ILIKE 'unknown'` (no wildcards) is case-insensitive
string equality.  Python float ratios are embedded as exact rationals,
and `"{:.2f}"`/`"{:.2%}"` as round-half-even fixed-point rendering.
-/

/-- The `CheckResult` dataclass: `name`, `ok`, `details` (default `""`). -/
structure CheckResult where
  name : String
  ok : Bool
  details : String := ""
  deriving Repr, DecidableEq

/-- One row of a stats table, projected to the columns the checks read. -/
structure StatsRow where
  uses : Int
  wins : Int
  deriving Repr, DecidableEq

/-- One row of `meta_deck_types`: its label plus the stats columns. -/
structure MetaRow where
  deck_type : String
  uses : Int
  wins : Int
  deriving Repr, DecidableEq

/-- The snapshot: the tables of the database, each projected to the
columns the validation checks read; `player` is its row count. -/
structure Snapshot where
  deck_cards : List String
  player_decks : List StatsRow
  player_type_cards : List StatsRow
  meta_deck_types : List MetaRow
  meta_type_cards : List StatsRow
  meta_type_deck_ids : List StatsRow
  player : Nat
  deriving Repr, DecidableEq

/-- Python `str.join`: `sep.join(l)`. -/
def pyJoin (sep : String) : List String → String
  | [] => ""
  | a :: rest => rest.foldl (fun acc x => acc ++ sep ++ x) a

/-- Floor of a rational, computed on its normalised numerator/denominator. -/
def ratFloor (q : ℚ) : Int := Int.fdiv q.num (q.den : Int)

/-- Round to the nearest integer, ties to even (Python float formatting). -/
def roundHalfEven (q : ℚ) : Int :=
  let f : Int := ratFloor q
  let r : ℚ := q - (f : ℚ)
  if r < 1 / 2 then f
  else if 1 / 2 < r then f + 1
  else if f % 2 = 0 then f else f + 1

/-- Two-digit zero-padded rendering of a value below 100. -/
def pad2 (n : Nat) : String := if n < 10 then "0" ++ toString n else toString n

/-- Python `f"{q:.2f}"`: fixed-point, two decimals, round half to even. -/
def fmt2 (q : ℚ) : String :=
  let c : Int := roundHalfEven (q * 100)
  let sign := if c < 0 then "-" else ""
  let a : Nat := c.natAbs
  sign ++ toString (a / 100) ++ "." ++ pad2 (a % 100)

/-- Python `f"{q:.2%}"`: percentage with two decimals. -/
def fmtPercent2 (q : ℚ) : String := fmt2 (q * 100) ++ "%"

/-- `SELECT deck_hash, COUNT(*) FROM deck_cards GROUP BY deck_hash`:
each distinct `deck_hash` paired with its number of rows. -/
def groupCounts (dc : List String) : List (String × Nat) :=
  dc.dedup.map (fun h => (h, dc.count h))

/-- `... HAVING COUNT(*) <> 8 LIMIT 20`. -/
def offendingDeckGroups (dc : List String) : List (String × Nat) :=
  ((groupCounts dc).filter (fun p => decide (p.2 ≠ 8))).take 20

def deckCardsCheckName : String := "deck_cards: each deck_hash has exactly 8 cards"

/-- `check_deck_cards_integrity`, as a function of the `deck_cards` rows. -/
def check_deck_cards_core (dc : List String) : CheckResult :=
  let rows := offendingDeckGroups dc
  if rows = [] then { name := deckCardsCheckName, ok := true }
  else
    let sample := pyJoin "\n" (rows.map (fun p => "  " ++ p.1 ++ " -> " ++ toString p.2))
    { name := deckCardsCheckName
      ok := false
      details := "Found deck_hash with != 8 cards (showing up to 20):\n" ++ sample }

def check_deck_cards_integrity (s : Snapshot) : CheckResult :=
  check_deck_cards_core s.deck_cards

/-- Projection of a `meta_deck_types` row to its stats columns. -/
def statsOfMeta (r : MetaRow) : StatsRow := ⟨r.uses, r.wins⟩

/-- The row condition `wins > uses OR wins < 0 OR uses < 0`. -/
def isBadRow (r : StatsRow) : Bool :=
  decide (r.wins > r.uses) || decide (r.wins < 0) || decide (r.uses < 0)

/-- `SELECT COUNT(*) FROM t WHERE wins > uses OR wins < 0 OR uses < 0`. -/
def badCount (rows : List StatsRow) : Nat := (rows.filter isBadRow).length

/-- The fixed list of stats tables scanned by `check_wins_uses_sanity`. -/
def winsUsesTables (pd ptc : List StatsRow) (mdt : List MetaRow)
    (mtc mtd : List StatsRow) : List (String × List StatsRow) :=
  [("player_decks", pd),
   ("player_type_cards", ptc),
   ("meta_deck_types", mdt.map statsOfMeta),
   ("meta_type_cards", mtc),
   ("meta_type_deck_ids", mtd)]

/-- The accumulated `"{t} has {n} bad rows"` reasons, one per bad table. -/
def badReasons (pd ptc : List StatsRow) (mdt : List MetaRow)
    (mtc mtd : List StatsRow) : List String :=
  (winsUsesTables pd ptc mdt mtc mtd).filterMap (fun pr =>
    let n := badCount pr.2
    if 0 < n then some (pr.1 ++ " has " ++ toString n ++ " bad rows") else none)

def winsUsesCheckName : String := "wins/uses sanity (wins<=uses and non-negative)"

/-- `check_wins_uses_sanity`, as a function of the five stats tables. -/
def check_wins_uses_core (pd ptc : List StatsRow) (mdt : List MetaRow)
    (mtc mtd : List StatsRow) : CheckResult :=
  let bad := badReasons pd ptc mdt mtc mtd
  if bad = [] then { name := winsUsesCheckName, ok := true }
  else { name := winsUsesCheckName, ok := false, details := pyJoin "; " bad }

def check_wins_uses_sanity (s : Snapshot) : CheckResult :=
  check_wins_uses_core s.player_decks s.player_type_cards s.meta_deck_types
    s.meta_type_cards s.meta_type_deck_ids

def metaNotEmptyCheckName : String := "meta sanity: meta_deck_types not empty"

/-- `check_meta_not_empty`: `SELECT COUNT(*) FROM meta_deck_types` is zero. -/
def check_meta_not_empty_core (mdt : List MetaRow) : CheckResult :=
  let n := mdt.length
  if n = 0 then
    { name := metaNotEmptyCheckName, ok := false, details := "meta_deck_types is empty" }
  else { name := metaNotEmptyCheckName, ok := true }

def check_meta_not_empty (s : Snapshot) : CheckResult :=
  check_meta_not_empty_core s.meta_deck_types

/-- `SELECT COALESCE(SUM(uses),0)` over a stats table. -/
def sumUses (rows : List StatsRow) : Int := (rows.map (fun r => r.uses)).sum

/-- `SELECT COALESCE(SUM(uses),0) FROM meta_deck_types`. -/
def sumUsesMeta (rows : List MetaRow) : Int := (rows.map (fun r => r.uses)).sum

/-- Lower-casing of a string, character by character. -/
def strLower (s : String) : String := ⟨s.data.map Char.toLower⟩

/-- `SELECT COALESCE(SUM(uses),0) FROM meta_deck_types WHERE deck_type ILIKE 'unknown'`:
the pattern has no wildcards, so `ILIKE` is case-insensitive equality. -/
def sumUnknownUses (rows : List MetaRow) : Int :=
  ((rows.filter (fun r => decide (strLower r.deck_type = "unknown"))).map
    (fun r => r.uses)).sum

def unknownCheckName : String := "deck_type sanity: unknown ratio"

/-- `check_unknown_deck_type_explosion`, as a function of `meta_deck_types`
and the `max_unknown_ratio` parameter (an exact rational). -/
def check_unknown_deck_type_core (mdt : List MetaRow) (maxUnknown : ℚ) : CheckResult :=
  let total : Int := sumUsesMeta mdt
  let unknown : Int := sumUnknownUses mdt
  if total = 0 then
    { name := unknownCheckName, ok := false, details := "meta_deck_types total uses is 0" }
  else
    let r : ℚ := (unknown : ℚ) / (total : ℚ)
    if r > maxUnknown then
      { name := unknownCheckName
        ok := false
        details := "Unknown uses ratio too high: " ++ toString unknown ++ "/" ++
          toString total ++ " = " ++ fmtPercent2 r ++ " (max " ++
          fmtPercent2 maxUnknown ++ ")" }
    else
      { name := unknownCheckName
        ok := true
        details := "Unknown ratio: " ++ toString unknown ++ "/" ++ toString total ++
          " = " ++ fmtPercent2 r }

def check_unknown_deck_type_explosion (s : Snapshot) (maxUnknown : ℚ) : CheckResult :=
  check_unknown_deck_type_core s.meta_deck_types maxUnknown

/-- The `--max-unknown-ratio` argparse default, `0.30`. -/
def defaultMaxUnknown : ℚ := 30 / 100

def totalsCheckName : String := "totals sanity: meta_obs between topn_obs and 2*topn_obs"

/-- `check_totals_sanity_topn_vs_meta`, as a function of `player_decks`
and `meta_deck_types`. -/
def check_totals_core (pd : List StatsRow) (mdt : List MetaRow) : CheckResult :=
  let topn_obs : Int := sumUses pd
  let meta_obs : Int := sumUsesMeta mdt
  if topn_obs = 0 then
    { name := totalsCheckName
      ok := false
      details := "topn_obs (SUM(player_decks.uses)) is 0; did ETL write player_decks?" }
  else if meta_obs < topn_obs then
    { name := totalsCheckName
      ok := false
      details := "meta_obs < topn_obs (" ++ toString meta_obs ++ " < " ++
        toString topn_obs ++ ")" }
  else if meta_obs > 2 * topn_obs then
    { name := totalsCheckName
      ok := false
      details := "meta_obs > 2*topn_obs (" ++ toString meta_obs ++ " > " ++
        toString (2 * topn_obs) ++ ")" }
  else
    { name := totalsCheckName
      ok := true
      details := "topn_obs=" ++ toString topn_obs ++ ", meta_obs=" ++
        toString meta_obs ++ ", ratio=" ++ fmt2 ((meta_obs : ℚ) / (topn_obs : ℚ)) }

def check_totals_sanity_topn_vs_meta (s : Snapshot) : CheckResult :=
  check_totals_core s.player_decks s.meta_deck_types

def expectedCountCheckName : String := "player count matches --top-n"

/-- `check_expected_topn_player_count`, as a function of the `player`
row count and the optional `--top-n` value. -/
def check_expected_topn_core (playerCount : Nat) (expected_topn : Option Int) : CheckResult :=
  match expected_topn with
  | none => { name := expectedCountCheckName ++ " (skipped)", ok := true }
  | some e =>
    let n : Int := (playerCount : Int)
    if n ≠ e then
      { name := expectedCountCheckName
        ok := false
        details := "player table count = " ++ toString n ++ ", expected " ++ toString e }
    else
      { name := expectedCountCheckName, ok := true, details := "player=" ++ toString n }

def check_expected_topn_player_count (s : Snapshot) (expected_topn : Option Int) : CheckResult :=
  check_expected_topn_core s.player expected_topn

/-- The body of `main`'s `with engine.connect() as conn:` block: the six
checks appended to `checks` in source order. -/
def runChecks (s : Snapshot) (top_n : Option Int) (maxUnknown : ℚ) : List CheckResult :=
  [check_deck_cards_integrity s,
   check_wins_uses_sanity s,
   check_meta_not_empty s,
   check_expected_topn_player_count s top_n,
   check_totals_sanity_topn_vs_meta s,
   check_unknown_deck_type_explosion s maxUnknown]

/-- `main`'s reporting loop: the number of results with `ok` false. -/
def failedCount (rs : List CheckResult) : Nat := (rs.filter (fun c => !c.ok)).length

/-- `main`'s terminating status: `sys.exit(1)` when `failed` is nonzero,
`sys.exit(0)` otherwise. -/
def verdictExit (rs : List CheckResult) : Nat := if failedCount rs ≠ 0 then 1 else 0

/-!
Connection-target resolution.  `DATABASE_URL` from the environment and
`--database-url` from the command line are `Option String` (`none` =
unset); Python truthiness makes the empty string count as unset too.
-/

/-- Python truthiness of an optional string (`None` and `""` are falsy). -/
def pyTruthy (v : Option String) : Bool :=
  match v with
  | none => false
  | some u => decide (u ≠ "")

def databaseUrlFailMsg : String :=
  "[VALIDATE] FAIL: DATABASE_URL is not set (and --database-url not provided)."

/-- The module-level guard: `if not DATABASE_URL: raise SystemExit(...)`,
evaluated at import time, before the command line is parsed. -/
def module_database_url_guard (env : Option String) : Except String Unit :=
  if pyTruthy env then Except.ok () else Except.error databaseUrlFailMsg

/-- `_get_database_url`: `cli_value or os.getenv("DATABASE_URL")`, then
`_fail` when the result is falsy. -/
def get_database_url (cli env : Option String) : Except String String :=
  let url := if pyTruthy cli then cli else env
  if pyTruthy url then Except.ok (url.getD "") else Except.error databaseUrlFailMsg

/-- What the script does before any check runs: the import-time guard,
then `_get_database_url(args.database_url)`.  `Except.error` is the
printed failure message of the `SystemExit` (exit status 1). -/
def startup (env cli : Option String) : Except String String := do
  let _ ← module_database_url_guard env
  get_database_url cli env

/-!
Fallible snapshot access, for the fault-isolation policy: each table
read may raise instead of returning rows, and in `main` an exception
raised inside a check propagates out of the `with` block.
-/

/-- A connection whose per-table reads can fault (raise) instead of
returning rows. -/
structure ConnE where
  deck_cards : Except String (List String)
  player_decks : Except String (List StatsRow)
  player_type_cards : Except String (List StatsRow)
  meta_deck_types : Except String (List MetaRow)
  meta_type_cards : Except String (List StatsRow)
  meta_type_deck_ids : Except String (List StatsRow)
  player : Except String Nat

/-- A fault-free connection over a snapshot. -/
def connOfSnapshot (s : Snapshot) : ConnE :=
  { deck_cards := Except.ok s.deck_cards
    player_decks := Except.ok s.player_decks
    player_type_cards := Except.ok s.player_type_cards
    meta_deck_types := Except.ok s.meta_deck_types
    meta_type_cards := Except.ok s.meta_type_cards
    meta_type_deck_ids := Except.ok s.meta_type_deck_ids
    player := Except.ok s.player }

/-- `check_deck_cards_integrity` with a fallible query: the exception
propagates. -/
def check_deck_cards_integrityE (c : ConnE) : Except String CheckResult := do
  let dc ← c.deck_cards
  pure (check_deck_cards_core dc)

/-- `check_wins_uses_sanity` with fallible queries over its five tables. -/
def check_wins_uses_sanityE (c : ConnE) : Except String CheckResult := do
  let pd ← c.player_decks
  let ptc ← c.player_type_cards
  let mdt ← c.meta_deck_types
  let mtc ← c.meta_type_cards
  let mtd ← c.meta_type_deck_ids
  pure (check_wins_uses_core pd ptc mdt mtc mtd)

/-- `check_meta_not_empty` with a fallible query. -/
def check_meta_not_emptyE (c : ConnE) : Except String CheckResult := do
  let mdt ← c.meta_deck_types
  pure (check_meta_not_empty_core mdt)

/-- `check_expected_topn_player_count` with a fallible query (issued only
when `--top-n` was supplied, as in the source). -/
def check_expected_topn_player_countE (c : ConnE) (expected_topn : Option Int) :
    Except String CheckResult :=
  match expected_topn with
  | none => pure (check_expected_topn_core 0 none)
  | some e => do
    let n ← c.player
    pure (check_expected_topn_core n (some e))

/-- `check_totals_sanity_topn_vs_meta` with fallible queries. -/
def check_totals_sanity_topn_vs_metaE (c : ConnE) : Except String CheckResult := do
  let pd ← c.player_decks
  let mdt ← c.meta_deck_types
  pure (check_totals_core pd mdt)

/-- `check_unknown_deck_type_explosion` with fallible queries. -/
def check_unknown_deck_type_explosionE (c : ConnE) (maxUnknown : ℚ) :
    Except String CheckResult := do
  let mdt ← c.meta_deck_types
  pure (check_unknown_deck_type_core mdt maxUnknown)

/-- The `with engine.connect() as conn:` block of `main` over a fallible
connection: the checks run in source order, and an exception raised while
evaluating one check propagates, aborting the run. -/
def runChecksE (c : ConnE) (top_n : Option Int) (maxUnknown : ℚ) :
    Except String (List CheckResult) := do
  let r1 ← check_deck_cards_integrityE c
  let r2 ← check_wins_uses_sanityE c
  let r3 ← check_meta_not_emptyE c
  let r4 ← check_expected_topn_player_countE c top_n
  let r5 ← check_totals_sanity_topn_vs_metaE c
  let r6 ← check_unknown_deck_type_explosionE c maxUnknown
  pure [r1, r2, r3, r4, r5, r6]

/-!
Concrete example inputs, used by witnesses and counterexamples.
-/

/-- The all-empty snapshot. -/
def emptySnapshot : Snapshot :=
  { deck_cards := []
    player_decks := []
    player_type_cards := []
    meta_deck_types := []
    meta_type_cards := []
    meta_type_deck_ids := []
    player := 0 }

/-- The spec's deck-cardinality example: deck `D1` has 8 rows, deck `D2`
has 7 rows. -/
def deckCardsExample : List String :=
  ["D1", "D1", "D1", "D1", "D1", "D1", "D1", "D1",
   "D2", "D2", "D2", "D2", "D2", "D2", "D2"]

/-- `player_decks` rows of the spec's counters example: one row with
`uses = 5`, `wins = 6`. -/
def badPlayerDecks : List StatsRow := [⟨5, 6⟩]

/-- Meta rows with 100 total uses, 25 of them labelled `Unknown`. -/
def metaExample25 : List MetaRow := [⟨"Unknown", 25, 0⟩, ⟨"Cycle", 75, 10⟩]

/-- Meta rows with 100 total uses, 35 of them labelled `Unknown`. -/
def metaExample35 : List MetaRow := [⟨"Unknown", 35, 0⟩, ⟨"Cycle", 65, 10⟩]

/-- Meta rows with 150 total uses, none unknown. -/
def metaExample150 : List MetaRow := [⟨"Cycle", 150, 20⟩]

/-- `player_decks` rows summing to 100 uses. -/
def pdExample100 : List StatsRow := [⟨60, 30⟩, ⟨40, 10⟩]

/-- A connection whose `deck_cards` query faults and whose other reads
succeed on empty tables. -/
def faultyConn : ConnE :=
  { connOfSnapshot emptySnapshot with
    deck_cards := Except.error "simulated query fault" }

/-- A populated snapshot assembled from the examples above. -/
def exampleSnapshot : Snapshot :=
  { deck_cards := deckCardsExample
    player_decks := pdExample100
    player_type_cards := []
    meta_deck_types := metaExample150
    meta_type_cards := []
    meta_type_deck_ids := []
    player := 5 }

/-- Whether `needle` occurs as a contiguous run inside `hay` (list form). -/
def hasSub (needle : List Char) : List Char → Bool
  | [] => decide (needle = [])
  | c :: rest => decide ((c :: rest).take needle.length = needle) || hasSub needle rest

/-- Whether `needle` occurs as a contiguous substring of `hay`. -/
def strMentions (hay needle : String) : Bool := hasSub needle.data hay.data


/-!
Helper lemmas.
-/

theorem string_data_eq_nil_iff (s : String) : s.data = [] ↔ s = "" := by
  constructor
  · intro h
    cases s with
    | mk d =>
      have hd : d = [] := h
      rw [hd]
  · intro h
    rw [h]

theorem append_ne_empty_of_left (a b : String) (h : a ≠ "") : a ++ b ≠ "" := by
  intro he
  apply h
  have hd := congrArg String.data he
  rw [String.data_append] at hd
  have ha : a.data = [] := (List.append_eq_nil.mp hd).1
  exact (string_data_eq_nil_iff a).mp ha

theorem append_ne_empty_of_right (a b : String) (h : b ≠ "") : a ++ b ≠ "" := by
  intro he
  apply h
  have hd := congrArg String.data he
  rw [String.data_append] at hd
  have hb : b.data = [] := (List.append_eq_nil.mp hd).2
  exact (string_data_eq_nil_iff b).mp hb

theorem foldl_join_length (sep : String) :
    ∀ (l : List String) (acc : String),
      acc.length ≤ (l.foldl (fun acc x => acc ++ sep ++ x) acc).length
  | [], _ => le_refl _
  | x :: t, acc => by
    have ih := foldl_join_length sep t (acc ++ sep ++ x)
    simp only [List.foldl_cons]
    refine le_trans ?_ ih
    rw [String.length_append, String.length_append]
    omega

theorem pyJoin_cons_ne_empty (sep a : String) (l : List String) (h : a ≠ "") :
    pyJoin sep (a :: l) ≠ "" := by
  intro he
  apply h
  have hl := congrArg String.length he
  simp only [pyJoin] at hl
  have hge := foldl_join_length sep l a
  have h0 : ("" : String).length = 0 := rfl
  rw [h0] at hl
  have ha : a.length = 0 := by omega
  apply (string_data_eq_nil_iff a).mp
  exact List.length_eq_zero.mp ha

theorem hasSub_nil (h : List Char) : hasSub [] h = true := by
  cases h <;> simp [hasSub]

theorem hasSub_prefix (m y : List Char) : hasSub m (m ++ y) = true := by
  cases m with
  | nil => exact hasSub_nil y
  | cons c t =>
    have ht : ((c :: t) ++ y).take (c :: t).length = c :: t := List.take_left (c :: t) y
    simp [hasSub, ht]

theorem hasSub_self (m : List Char) : hasSub m m = true := by
  have := hasSub_prefix m []
  simpa using this

theorem hasSub_cons_of (m h : List Char) (c : Char) (hh : hasSub m h = true) :
    hasSub m (c :: h) = true := by
  simp [hasSub, hh]

theorem hasSub_append_l (x m h : List Char) (hh : hasSub m h = true) :
    hasSub m (x ++ h) = true := by
  induction x with
  | nil => simpa using hh
  | cons c t ih => exact hasSub_cons_of m (t ++ h) c ih

theorem hasSub_append_r (m : List Char) :
    ∀ (h y : List Char), hasSub m h = true → hasSub m (h ++ y) = true := by
  intro h
  induction h with
  | nil =>
    intro y hh
    have hm : m = [] := by
      simpa [hasSub] using hh
    subst hm
    simpa using hasSub_nil y
  | cons c rest ih =>
    intro y hh
    simp only [hasSub, Bool.or_eq_true] at hh
    rcases hh with hpre | hrest
    · have hp : (c :: rest).take m.length = m := by simpa using hpre
      have hlen : m.length ≤ (c :: rest).length := by
        have := congrArg List.length hp
        rw [List.length_take] at this
        omega
      have : ((c :: rest) ++ y).take m.length = m := by
        rw [List.take_append_of_le_length hlen]
        exact hp
      simp only [hasSub, Bool.or_eq_true, decide_eq_true_eq]
      exact Or.inl (by simpa using this)
    · have := ih y hrest
      exact hasSub_cons_of m (rest ++ y) c this

theorem strMentions_append_right (x m : String) : strMentions (x ++ m) m = true := by
  unfold strMentions
  rw [String.data_append]
  exact hasSub_append_l x.data m.data m.data (hasSub_self m.data)

theorem strMentions_append_r (h y m : String) (hh : strMentions h m = true) :
    strMentions (h ++ y) m = true := by
  unfold strMentions at hh ⊢
  rw [String.data_append]
  exact hasSub_append_r m.data h.data y.data hh

theorem take20_eq_nil {α : Type} (l : List α) (h : l.take 20 = []) : l = [] := by
  cases l with
  | nil => rfl
  | cons a t => simp [List.take_succ_cons] at h

theorem filterMap_guard {α β : Type} (p : α → Prop) [DecidablePred p] (f : α → β)
    (l : List α) :
    l.filterMap (fun a => if p a then some (f a) else none) =
      (l.filter (fun a => decide (p a))).map f := by
  induction l with
  | nil => rfl
  | cons a t ih => by_cases h : p a <;> simp [h, ih]

theorem badReasons_eq (pd ptc : List StatsRow) (mdt : List MetaRow)
    (mtc mtd : List StatsRow) :
    badReasons pd ptc mdt mtc mtd =
      ((winsUsesTables pd ptc mdt mtc mtd).filter
          (fun pr => decide (0 < badCount pr.2))).map
        (fun pr => pr.1 ++ " has " ++ toString (badCount pr.2) ++ " bad rows") := by
  unfold badReasons
  exact filterMap_guard (fun pr : String × List StatsRow => 0 < badCount pr.2) _ _

theorem badCount_pos_iff (rows : List StatsRow) :
    0 < badCount rows ↔ ∃ r ∈ rows, isBadRow r = true := by
  rw [badCount, List.length_pos, Ne, List.filter_eq_nil_iff]
  push_neg
  simp

theorem name_check_deck_cards (dc : List String) :
    (check_deck_cards_core dc).name = deckCardsCheckName := by
  by_cases h : offendingDeckGroups dc = [] <;> simp [check_deck_cards_core, h]

theorem name_check_wins_uses (pd ptc : List StatsRow) (mdt : List MetaRow)
    (mtc mtd : List StatsRow) :
    (check_wins_uses_core pd ptc mdt mtc mtd).name = winsUsesCheckName := by
  by_cases h : badReasons pd ptc mdt mtc mtd = [] <;> simp [check_wins_uses_core, h]

theorem name_check_meta_not_empty (mdt : List MetaRow) :
    (check_meta_not_empty_core mdt).name = metaNotEmptyCheckName := by
  by_cases h : mdt.length = 0 <;> simp [check_meta_not_empty_core, h]

theorem name_check_unknown (mdt : List MetaRow) (mx : ℚ) :
    (check_unknown_deck_type_core mdt mx).name = unknownCheckName := by
  by_cases h0 : sumUsesMeta mdt = 0
  · simp [check_unknown_deck_type_core, h0]
  · by_cases h1 : (sumUnknownUses mdt : ℚ) / (sumUsesMeta mdt : ℚ) > mx <;>
      simp [check_unknown_deck_type_core, h0, h1]

theorem name_check_totals (pd : List StatsRow) (mdt : List MetaRow) :
    (check_totals_core pd mdt).name = totalsCheckName := by
  by_cases h0 : sumUses pd = 0
  · simp [check_totals_core, h0]
  · by_cases h1 : sumUsesMeta mdt < sumUses pd
    · simp [check_totals_core, h0, h1]
    · by_cases h2 : sumUsesMeta mdt > 2 * sumUses pd <;>
        simp [check_totals_core, h0, h1, h2]

theorem name_check_expected (n : Nat) (tn : Option Int) :
    (check_expected_topn_core n tn).name =
      if tn.isSome then expectedCountCheckName
      else expectedCountCheckName ++ " (skipped)" := by
  cases tn with
  | none => rfl
  | some e => by_cases h : (n : Int) ≠ e <;> simp [check_expected_topn_core, h]

theorem deck_cards_fail_details (dc : List String) :
    (check_deck_cards_core dc).ok = false → (check_deck_cards_core dc).details ≠ "" := by
  by_cases h : offendingDeckGroups dc = [] <;> intro hok
  · simp [check_deck_cards_core, h] at hok
  · have hdet : (check_deck_cards_core dc).details =
        "Found deck_hash with != 8 cards (showing up to 20):\n" ++
          pyJoin "\n" ((offendingDeckGroups dc).map
            (fun p => "  " ++ p.1 ++ " -> " ++ toString p.2)) := by
      simp [check_deck_cards_core, h]
    rw [hdet]
    apply append_ne_empty_of_left
    decide

theorem wins_uses_fail_details (pd ptc : List StatsRow) (mdt : List MetaRow)
    (mtc mtd : List StatsRow) :
    (check_wins_uses_core pd ptc mdt mtc mtd).ok = false →
      (check_wins_uses_core pd ptc mdt mtc mtd).details ≠ "" := by
  by_cases h : badReasons pd ptc mdt mtc mtd = [] <;> intro hok
  · simp [check_wins_uses_core, h] at hok
  · simp only [check_wins_uses_core, if_neg h]
    cases hbad : badReasons pd ptc mdt mtc mtd with
    | nil => exact absurd hbad h
    | cons a t =>
      apply pyJoin_cons_ne_empty
      have ha : a ∈ badReasons pd ptc mdt mtc mtd := by
        rw [hbad]; exact List.mem_cons_self a t
      rw [badReasons_eq] at ha
      obtain ⟨pr, _, hEq⟩ := List.mem_map.mp ha
      rw [← hEq]
      apply append_ne_empty_of_right
      decide

theorem meta_not_empty_fail_details (mdt : List MetaRow) :
    (check_meta_not_empty_core mdt).ok = false →
      (check_meta_not_empty_core mdt).details ≠ "" := by
  by_cases h : mdt.length = 0 <;> intro hok
  · simp only [check_meta_not_empty_core, if_pos h]
    decide
  · simp [check_meta_not_empty_core, h] at hok

theorem expected_fail_details (n : Nat) (tn : Option Int) :
    (check_expected_topn_core n tn).ok = false →
      (check_expected_topn_core n tn).details ≠ "" := by
  cases tn with
  | none => intro hok; simp [check_expected_topn_core] at hok
  | some e =>
    by_cases h : (n : Int) ≠ e <;> intro hok
    · simp only [check_expected_topn_core, if_pos h]
      repeat' apply append_ne_empty_of_left
      decide
    · simp [check_expected_topn_core, h] at hok

theorem totals_fail_details (pd : List StatsRow) (mdt : List MetaRow) :
    (check_totals_core pd mdt).ok = false → (check_totals_core pd mdt).details ≠ "" := by
  by_cases h0 : sumUses pd = 0
  · intro _
    simp only [check_totals_core, if_pos h0]
    decide
  · by_cases h1 : sumUsesMeta mdt < sumUses pd
    · intro _
      simp only [check_totals_core, if_neg h0, if_pos h1]
      repeat' apply append_ne_empty_of_left
      decide
    · by_cases h2 : sumUsesMeta mdt > 2 * sumUses pd <;> intro hok
      · simp only [check_totals_core, if_neg h0, if_neg h1, if_pos h2]
        repeat' apply append_ne_empty_of_left
        decide
      · simp [check_totals_core, h0, h1, h2] at hok

theorem unknown_fail_details (mdt : List MetaRow) (mx : ℚ) :
    (check_unknown_deck_type_core mdt mx).ok = false →
      (check_unknown_deck_type_core mdt mx).details ≠ "" := by
  by_cases h0 : sumUsesMeta mdt = 0
  · intro _
    simp only [check_unknown_deck_type_core, if_pos h0]
    decide
  · by_cases h1 : (sumUnknownUses mdt : ℚ) / (sumUsesMeta mdt : ℚ) > mx <;> intro hok
    · simp only [check_unknown_deck_type_core, if_neg h0, if_pos h1]
      repeat' apply append_ne_empty_of_left
      decide
    · simp [check_unknown_deck_type_core, h0, h1] at hok

/-- On a fault-free connection the fallible runner agrees with the pure
runner: it returns exactly the six catalog results. -/
theorem runChecksE_connOfSnapshot (s : Snapshot) (top_n : Option Int) (mx : ℚ) :
    runChecksE (connOfSnapshot s) top_n mx = Except.ok (runChecks s top_n mx) := by
  cases top_n <;> rfl

/-!
Claim theorems.
-/

/-- C1: for every snapshot and parameter choice the Validation Runner
returns exactly one Check Result per catalog entry — six results, always —
in the fixed source order (deck cardinality, counters sanity, non-empty
catalog, expected population size, cross-table bounded ratio,
unresolved-label ratio); each entry of the result list is the output of
the corresponding check, so no check's failure affects whether the later
checks' results are produced. -/
theorem c1_runner_full_catalog (s : Snapshot) (top_n : Option Int) (mx : ℚ) :
    (runChecks s top_n mx).length = 6 ∧
    runChecks s top_n mx =
      [check_deck_cards_integrity s,
       check_wins_uses_sanity s,
       check_meta_not_empty s,
       check_expected_topn_player_count s top_n,
       check_totals_sanity_topn_vs_meta s,
       check_unknown_deck_type_explosion s mx] :=
  ⟨rfl, rfl⟩

/-- Witness for C1 at a concrete snapshot. -/
theorem c1_runner_full_catalog_witness :
    (runChecks emptySnapshot none (3 / 10)).length = 6 :=
  (c1_runner_full_catalog emptySnapshot none (3 / 10)).1

/-- C2 counterexample: a fault injected into the first check's query is
not converted into a failing Check Result — the whole run aborts with the
fault and no result list is produced, so the remaining checks are neither
evaluated nor reported. -/
theorem c2_fault_not_isolated_counterexample :
    runChecksE faultyConn none (3 / 10) = Except.error "simulated query fault" := rfl

/-- C2 (amended): an unexpected fault raised while evaluating the first
check's query propagates out of the runner: the run aborts with that
fault, producing no Check Result at all, and the remaining checks are not
evaluated. -/
theorem c2_fault_aborts_run (c : ConnE) (top_n : Option Int) (mx : ℚ) (e : String)
    (h : c.deck_cards = Except.error e) :
    runChecksE c top_n mx = Except.error e := by
  simp only [runChecksE, check_deck_cards_integrityE, h]
  rfl

/-- Witness for the amended C2 at a concrete faulty connection. -/
theorem c2_fault_aborts_run_witness :
    faultyConn.deck_cards = Except.error "simulated query fault" ∧
    runChecksE faultyConn none (3 / 10) = Except.error "simulated query fault" :=
  ⟨rfl, c2_fault_aborts_run faultyConn none (3 / 10) "simulated query fault" rfl⟩

/-- C4: the overall verdict passes iff the count of failing results is
zero, and the terminating status is 0 exactly when every check passed and
1 exactly when at least one failed. -/
theorem c4_verdict_exit (rs : List CheckResult) :
    (failedCount rs = 0 ↔ ∀ r ∈ rs, r.ok = true) ∧
    (verdictExit rs = 0 ↔ ∀ r ∈ rs, r.ok = true) ∧
    (verdictExit rs = 1 ↔ ∃ r ∈ rs, r.ok = false) := by
  have hfc : failedCount rs = 0 ↔ ∀ r ∈ rs, r.ok = true := by
    simp [failedCount, List.length_eq_zero, List.filter_eq_nil_iff]
  have hex : ¬ failedCount rs = 0 ↔ ∃ r ∈ rs, r.ok = false := by
    rw [hfc]
    push_neg
    simp
  refine ⟨hfc, ?_, ?_⟩
  · unfold verdictExit
    split_ifs with h
    · constructor
      · intro h10
        exact absurd h10 (by simp)
      · intro hall
        exact absurd (hfc.mpr hall) h
    · have h0 : failedCount rs = 0 := by omega
      exact iff_of_true rfl (hfc.mp h0)
  · unfold verdictExit
    split_ifs with h
    · exact iff_of_true rfl (hex.mp h)
    · constructor
      · intro h01
        exact absurd h01 (by simp)
      · intro hexist
        exact (h (hex.mpr hexist)).elim

/-- Witness for C4 on concrete result lists. -/
theorem c4_verdict_exit_witness :
    verdictExit [{ name := "a", ok := false, details := "d" }] = 1 ∧
    verdictExit [{ name := "a", ok := true }] = 0 :=
  ⟨(c4_verdict_exit _).2.2.mpr
    ⟨{ name := "a", ok := false, details := "d" }, by simp, rfl⟩,
   (c4_verdict_exit _).2.1.mpr (by simp)⟩

/-- C5 (code bug): the import-time `DATABASE_URL` guard aborts whenever
the environment variable is unset, even when `--database-url` is supplied
on the command line — although `_get_database_url` itself would have
accepted the command-line value, and the environment value alone is
accepted when the command line omits it. -/
theorem c5_module_guard_rejects_cli_url :
    startup none (some "postgresql://localhost/cr") = Except.error databaseUrlFailMsg ∧
    get_database_url (some "postgresql://localhost/cr") none =
      Except.ok "postgresql://localhost/cr" ∧
    startup (some "postgresql://env/db") none = Except.ok "postgresql://env/db" ∧
    startup (some "postgresql://env/db") (some "postgresql://cli/db") =
      Except.ok "postgresql://cli/db" ∧
    startup none none = Except.error databaseUrlFailMsg :=
  ⟨rfl, rfl, rfl, rfl, rfl⟩

/-- C9: for every Check Result produced by any check in the catalog, on
any snapshot and with any parameters, `ok = false` implies the `details`
field is a non-empty string. -/
theorem c9_fail_implies_details_nonempty (s : Snapshot) (top_n : Option Int) (mx : ℚ) :
    ∀ r ∈ runChecks s top_n mx, r.ok = false → r.details ≠ "" := by
  intro r hr
  simp only [runChecks, List.mem_cons, List.not_mem_nil, or_false] at hr
  rcases hr with h | h | h | h | h | h <;> subst h
  · exact deck_cards_fail_details s.deck_cards
  · exact wins_uses_fail_details s.player_decks s.player_type_cards s.meta_deck_types
      s.meta_type_cards s.meta_type_deck_ids
  · exact meta_not_empty_fail_details s.meta_deck_types
  · exact expected_fail_details s.player top_n
  · exact totals_fail_details s.player_decks s.meta_deck_types
  · exact unknown_fail_details s.meta_deck_types mx

/-- Witness for C9: on the empty snapshot the non-empty-catalog check
fails, and its details are non-empty. -/
theorem c9_fail_implies_details_nonempty_witness :
    (check_meta_not_empty emptySnapshot).details ≠ "" :=
  c9_fail_implies_details_nonempty emptySnapshot none (3 / 10)
    (check_meta_not_empty emptySnapshot) (by simp [runChecks]) (by decide)

/-- C10 counterexample: the name produced at catalog position 3 (the
expected-population-size check) differs between a run where the expected
size is supplied and a run where it is omitted, on the same snapshot. -/
theorem c10_name_not_stable_counterexample :
    (runChecks emptySnapshot (some 5) (3 / 10)).map CheckResult.name ≠
      (runChecks emptySnapshot none (3 / 10)).map CheckResult.name := by
  decide

/-- C10 (amended): every check's name is independent of the snapshot, the
ceiling, and pass/fail outcome; the single exception is the
expected-population-size check, whose name carries a " (skipped)" suffix
when the expected value is omitted.  Hence any two runs that agree on
whether the expected population size was supplied produce identical name
sequences. -/
theorem c10_names_stable_given_mode (s s' : Snapshot) (tn tn' : Option Int)
    (mx mx' : ℚ) (h : tn.isSome = tn'.isSome) :
    (runChecks s tn mx).map CheckResult.name =
      (runChecks s' tn' mx').map CheckResult.name := by
  simp only [runChecks, List.map_cons, List.map_nil,
    check_deck_cards_integrity, check_wins_uses_sanity, check_meta_not_empty,
    check_expected_topn_player_count, check_totals_sanity_topn_vs_meta,
    check_unknown_deck_type_explosion,
    name_check_deck_cards, name_check_wins_uses, name_check_meta_not_empty,
    name_check_expected, name_check_totals, name_check_unknown]
  rw [h]

/-- Witness for the amended C10 across two different snapshots and
parameter values that agree on the supplied/omitted mode. -/
theorem c10_names_stable_given_mode_witness :
    (some (5 : Int)).isSome = (some (7 : Int)).isSome ∧
    (runChecks emptySnapshot (some 5) (3 / 10)).map CheckResult.name =
      (runChecks exampleSnapshot (some 7) (1 / 2)).map CheckResult.name :=
  ⟨rfl, c10_names_stable_given_mode emptySnapshot exampleSnapshot
    (some 5) (some 7) (3 / 10) (1 / 2) rfl⟩

/-- C3: the cross-table bounded-ratio check fails exactly when
`topn_obs = 0`, or `meta_obs < topn_obs`, or `meta_obs > 2 * topn_obs`
(so both boundary cases pass), and on a pass its details report the
computed ratio `meta_obs / topn_obs`. -/
theorem c3_totals_bounded_iff (pd : List StatsRow) (mdt : List MetaRow) :
    ((check_totals_core pd mdt).ok = false ↔
      sumUses pd = 0 ∨ sumUsesMeta mdt < sumUses pd ∨
        sumUsesMeta mdt > 2 * sumUses pd) ∧
    ((check_totals_core pd mdt).ok = true →
      strMentions (check_totals_core pd mdt).details
        (fmt2 ((sumUsesMeta mdt : ℚ) / (sumUses pd : ℚ))) = true) := by
  constructor
  · by_cases h0 : sumUses pd = 0
    · simp [check_totals_core, h0]
    · by_cases h1 : sumUsesMeta mdt < sumUses pd
      · simp [check_totals_core, h0, h1]
      · by_cases h2 : sumUsesMeta mdt > 2 * sumUses pd
        · simp [check_totals_core, h0, h1, h2]
        · simp [check_totals_core, h0, h1, h2]
  · intro hok
    by_cases h0 : sumUses pd = 0
    · simp [check_totals_core, h0] at hok
    · by_cases h1 : sumUsesMeta mdt < sumUses pd
      · simp [check_totals_core, h0, h1] at hok
      · by_cases h2 : sumUsesMeta mdt > 2 * sumUses pd
        · simp [check_totals_core, h0, h1, h2] at hok
        · have hdet : (check_totals_core pd mdt).details =
              "topn_obs=" ++ toString (sumUses pd) ++ ", meta_obs=" ++
                toString (sumUsesMeta mdt) ++ ", ratio=" ++
                fmt2 ((sumUsesMeta mdt : ℚ) / (sumUses pd : ℚ)) := by
            simp [check_totals_core, h0, h1, h2]
          rw [hdet]
          exact strMentions_append_right _ _

unseal Rat.mul Rat.inv Rat.add Rat.sub in
/-- Witness for C3 on the spec's concrete figures: `topn_obs = 100` with
`meta_obs = 150` passes and reports ratio `1.50`; `meta_obs = 90`,
`meta_obs = 210`, and `topn_obs = 0` all fail. -/
theorem c3_totals_bounded_iff_witness :
    (check_totals_core pdExample100 metaExample150).ok = true ∧
    strMentions (check_totals_core pdExample100 metaExample150).details
      "ratio=1.50" = true ∧
    strMentions (check_totals_core pdExample100 metaExample150).details
      (fmt2 ((sumUsesMeta metaExample150 : ℚ) / (sumUses pdExample100 : ℚ))) = true ∧
    (check_totals_core pdExample100 [⟨"X", 90, 0⟩]).ok = false ∧
    (check_totals_core pdExample100 [⟨"X", 210, 0⟩]).ok = false ∧
    (check_totals_core [] metaExample150).ok = false := by
  refine ⟨by decide, by decide, ?_, ?_, ?_, ?_⟩
  · exact (c3_totals_bounded_iff pdExample100 metaExample150).2 (by decide)
  · exact (c3_totals_bounded_iff pdExample100 [⟨"X", 90, 0⟩]).1.mpr
      (Or.inr (Or.inl (by decide)))
  · exact (c3_totals_bounded_iff pdExample100 [⟨"X", 210, 0⟩]).1.mpr
      (Or.inr (Or.inr (by decide)))
  · exact (c3_totals_bounded_iff [] metaExample150).1.mpr (Or.inl (by decide))

/-- C6: the deck cardinality check fails iff some deck identifier in the
deck-cards table has a row count different from 8 (so it passes on the
empty table); the diagnostic sample holds at most 20 pairs, every pair in
it is an offending (identifier, count) pair with its true count, and the
failure details are built from exactly those pairs. -/
theorem c6_deck_cardinality (dc : List String) :
    ((check_deck_cards_core dc).ok = false ↔ ∃ x ∈ dc, dc.count x ≠ 8) ∧
    (offendingDeckGroups dc).length ≤ 20 ∧
    (∀ p ∈ offendingDeckGroups dc, p.2 ≠ 8 ∧ p.2 = dc.count p.1) ∧
    ((check_deck_cards_core dc).ok = false →
      (check_deck_cards_core dc).details =
        "Found deck_hash with != 8 cards (showing up to 20):\n" ++
          pyJoin "\n" ((offendingDeckGroups dc).map
            (fun p => "  " ++ p.1 ++ " -> " ++ toString p.2))) := by
  refine ⟨⟨?_, ?_⟩, ?_, ?_, ?_⟩
  · intro hok
    by_cases h : offendingDeckGroups dc = []
    · simp [check_deck_cards_core, h] at hok
    · obtain ⟨p, hp⟩ := List.exists_mem_of_ne_nil _ h
      simp only [offendingDeckGroups] at hp
      have hpf := List.take_subset 20 _ hp
      have hmf := List.mem_filter.mp hpf
      have h8 : p.2 ≠ 8 := by simpa using hmf.2
      have hpg := hmf.1
      simp only [groupCounts] at hpg
      obtain ⟨a, ha, hEq⟩ := List.mem_map.mp hpg
      refine ⟨a, List.mem_dedup.mp ha, ?_⟩
      rw [← hEq] at h8
      simpa using h8
  · rintro ⟨x, hx, hcount⟩
    by_cases h : offendingDeckGroups dc = []
    · exfalso
      have hfil : (groupCounts dc).filter (fun p => decide (p.2 ≠ 8)) = [] :=
        take20_eq_nil _ (by simpa [offendingDeckGroups] using h)
      have hmem : (x, dc.count x) ∈ groupCounts dc := by
        simp only [groupCounts]
        exact List.mem_map.mpr ⟨x, List.mem_dedup.mpr hx, rfl⟩
      have hin : (x, dc.count x) ∈
          (groupCounts dc).filter (fun p => decide (p.2 ≠ 8)) :=
        List.mem_filter.mpr ⟨hmem, by simpa using hcount⟩
      rw [hfil] at hin
      exact List.not_mem_nil _ hin
    · simp [check_deck_cards_core, h]
  · simp only [offendingDeckGroups]
    exact List.length_take_le _ _
  · intro p hp
    simp only [offendingDeckGroups] at hp
    have hpf := List.take_subset 20 _ hp
    have hmf := List.mem_filter.mp hpf
    have h8 : p.2 ≠ 8 := by simpa using hmf.2
    have hpg := hmf.1
    simp only [groupCounts] at hpg
    obtain ⟨a, ha, hEq⟩ := List.mem_map.mp hpg
    refine ⟨h8, ?_⟩
    rw [← hEq]
  · intro hok
    by_cases h : offendingDeckGroups dc = []
    · simp [check_deck_cards_core, h] at hok
    · simp [check_deck_cards_core, h]

/-- Witness for C6 on the spec's example: deck `D1` with 8 rows and `D2`
with 7 rows — the check fails, its details mention `D2` with count 7 and
do not mention `D1`, and the empty table passes. -/
theorem c6_deck_cardinality_witness :
    (check_deck_cards_core deckCardsExample).ok = false ∧
    strMentions (check_deck_cards_core deckCardsExample).details "D2 -> 7" = true ∧
    strMentions (check_deck_cards_core deckCardsExample).details "D1" = false ∧
    (check_deck_cards_core []).ok = true := by
  refine ⟨?_, by decide, by decide, by decide⟩
  exact (c6_deck_cardinality deckCardsExample).1.mpr ⟨"D2", by decide, by decide⟩

/-- C7: the counters sanity check fails iff at least one of the five
fixed tables contains a row with `wins > uses`, `wins < 0`, or
`uses < 0`; the accumulated reasons are exactly one string per offending
table (with its offending row count), a table with no bad row contributes
none, the scanned tables are exactly the five fixed ones, and the failure
details join all reasons. -/
theorem c7_counters_sanity (pd ptc : List StatsRow) (mdt : List MetaRow)
    (mtc mtd : List StatsRow) :
    ((check_wins_uses_core pd ptc mdt mtc mtd).ok = false ↔
      ∃ pr ∈ winsUsesTables pd ptc mdt mtc mtd, ∃ r ∈ pr.2, isBadRow r = true) ∧
    badReasons pd ptc mdt mtc mtd =
      ((winsUsesTables pd ptc mdt mtc mtd).filter
          (fun pr => decide (0 < badCount pr.2))).map
        (fun pr => pr.1 ++ " has " ++ toString (badCount pr.2) ++ " bad rows") ∧
    ((winsUsesTables pd ptc mdt mtc mtd).map Prod.fst =
      ["player_decks", "player_type_cards", "meta_deck_types",
       "meta_type_cards", "meta_type_deck_ids"]) ∧
    ((check_wins_uses_core pd ptc mdt mtc mtd).ok = false →
      (check_wins_uses_core pd ptc mdt mtc mtd).details =
        pyJoin "; " (badReasons pd ptc mdt mtc mtd)) := by
  have hbr := badReasons_eq pd ptc mdt mtc mtd
  refine ⟨⟨?_, ?_⟩, hbr, rfl, ?_⟩
  · intro hok
    by_cases h : badReasons pd ptc mdt mtc mtd = []
    · simp [check_wins_uses_core, h] at hok
    · rw [hbr] at h
      have hf : (winsUsesTables pd ptc mdt mtc mtd).filter
          (fun pr => decide (0 < badCount pr.2)) ≠ [] := by
        intro hfe
        apply h
        rw [hfe]
        rfl
      obtain ⟨pr, hpr⟩ := List.exists_mem_of_ne_nil _ hf
      have hm := List.mem_filter.mp hpr
      have hpos : 0 < badCount pr.2 := by simpa using hm.2
      obtain ⟨r, hr, hbad⟩ := (badCount_pos_iff pr.2).mp hpos
      exact ⟨pr, hm.1, r, hr, hbad⟩
  · rintro ⟨pr, hpr, r, hr, hbad⟩
    by_cases h : badReasons pd ptc mdt mtc mtd = []
    · exfalso
      rw [hbr] at h
      have hpos : 0 < badCount pr.2 := (badCount_pos_iff pr.2).mpr ⟨r, hr, hbad⟩
      have hin : pr ∈ (winsUsesTables pd ptc mdt mtc mtd).filter
          (fun pr => decide (0 < badCount pr.2)) :=
        List.mem_filter.mpr ⟨hpr, by simpa using hpos⟩
      have hfe := List.map_eq_nil_iff.mp h
      rw [hfe] at hin
      exact List.not_mem_nil _ hin
    · simp [check_wins_uses_core, h]
  · intro hok
    by_cases h : badReasons pd ptc mdt mtc mtd = []
    · simp [check_wins_uses_core, h] at hok
    · simp [check_wins_uses_core, h]

/-- Witness for C7 on the spec's example: `player_decks` with a row
`(uses=5, wins=6)` fails and the details name `player_decks`; with all
rows satisfying `0 ≤ wins ≤ uses` the check passes. -/
theorem c7_counters_sanity_witness :
    (check_wins_uses_core badPlayerDecks [] [] [] []).ok = false ∧
    strMentions (check_wins_uses_core badPlayerDecks [] [] [] []).details
      "player_decks" = true ∧
    (check_wins_uses_core [⟨5, 3⟩] [] [] [] []).ok = true := by
  refine ⟨?_, by decide, by decide⟩
  exact (c7_counters_sanity badPlayerDecks [] [] [] []).1.mpr
    ⟨("player_decks", badPlayerDecks), by decide, ⟨5, 6⟩, by decide, by decide⟩

/-- C8: the unresolved-label ratio check (case-insensitive exact match
against the literal `unknown`, absent sums taken as 0) fails exactly when
`total = 0` or when `unknown / total` strictly exceeds the ceiling — a
ratio equal to the ceiling passes — and whenever a ratio exists it is
reported in the details; the argparse default ceiling is `0.30`. -/
theorem c8_unknown_ceiling (mdt : List MetaRow) (mx : ℚ) :
    ((check_unknown_deck_type_core mdt mx).ok = false ↔
      sumUsesMeta mdt = 0 ∨
        (sumUnknownUses mdt : ℚ) / (sumUsesMeta mdt : ℚ) > mx) ∧
    (sumUsesMeta mdt ≠ 0 →
      strMentions (check_unknown_deck_type_core mdt mx).details
        (fmtPercent2 ((sumUnknownUses mdt : ℚ) / (sumUsesMeta mdt : ℚ))) = true) ∧
    defaultMaxUnknown = 3 / 10 := by
  refine ⟨?_, ?_, by norm_num [defaultMaxUnknown]⟩
  · by_cases h0 : sumUsesMeta mdt = 0
    · simp [check_unknown_deck_type_core, h0]
    · by_cases h1 : (sumUnknownUses mdt : ℚ) / (sumUsesMeta mdt : ℚ) > mx <;>
        simp [check_unknown_deck_type_core, h0, h1]
  · intro h0
    by_cases h1 : (sumUnknownUses mdt : ℚ) / (sumUsesMeta mdt : ℚ) > mx
    · have hdet : (check_unknown_deck_type_core mdt mx).details =
          "Unknown uses ratio too high: " ++ toString (sumUnknownUses mdt) ++ "/" ++
            toString (sumUsesMeta mdt) ++ " = " ++
            fmtPercent2 ((sumUnknownUses mdt : ℚ) / (sumUsesMeta mdt : ℚ)) ++
            " (max " ++ fmtPercent2 mx ++ ")" := by
        simp [check_unknown_deck_type_core, h0, h1]
      rw [hdet]
      apply strMentions_append_r
      apply strMentions_append_r
      apply strMentions_append_r
      exact strMentions_append_right _ _
    · have hdet : (check_unknown_deck_type_core mdt mx).details =
          "Unknown ratio: " ++ toString (sumUnknownUses mdt) ++ "/" ++
            toString (sumUsesMeta mdt) ++ " = " ++
            fmtPercent2 ((sumUnknownUses mdt : ℚ) / (sumUsesMeta mdt : ℚ)) := by
        simp [check_unknown_deck_type_core, h0, h1]
      rw [hdet]
      exact strMentions_append_right _ _

unseal Rat.mul Rat.inv Rat.add Rat.sub in
/-- Witness for C8 on the spec's concrete figures with ceiling `0.30`:
`unknown = 25, total = 100` passes and reports `25.00%`; `unknown = 35`
fails; `total = 0` fails; `unknown = 30` (ratio exactly the ceiling)
passes. -/
theorem c8_unknown_ceiling_witness :
    (check_unknown_deck_type_core metaExample25 (3 / 10)).ok = true ∧
    strMentions (check_unknown_deck_type_core metaExample25 (3 / 10)).details
      "25.00%" = true ∧
    strMentions (check_unknown_deck_type_core metaExample25 (3 / 10)).details
      (fmtPercent2 ((sumUnknownUses metaExample25 : ℚ) /
        (sumUsesMeta metaExample25 : ℚ))) = true ∧
    (check_unknown_deck_type_core metaExample35 (3 / 10)).ok = false ∧
    (check_unknown_deck_type_core [] (3 / 10)).ok = false ∧
    (check_unknown_deck_type_core [⟨"Unknown", 30, 0⟩, ⟨"A", 70, 0⟩] (3 / 10)).ok
      = true := by
  refine ⟨by decide, by decide, ?_, ?_, ?_, by decide⟩
  · exact (c8_unknown_ceiling metaExample25 (3 / 10)).2.1 (by decide)
  · exact (c8_unknown_ceiling metaExample35 (3 / 10)).1.mpr (Or.inr (by decide))
  · exact (c8_unknown_ceiling [] (3 / 10)).1.mpr (Or.inl (by decide))
